import Mathlib

/-!
Shallow embedding of `cmd/cloudcontroller/pkg/controllers/gcpkubernetesclusterreconciler.go`
(package `controllers` of `github.com/charmelionag/cloudcontroller`).

The reconciler is pure orchestration over three collaborators (resource store,
GCP cloud client, event recorder).  We embed one `Reconcile` invocation as a
function over an environment `ReconcileEnv` that records the responses every
collaborator call would give, in call order, and we return the trace of
observable side effects (create calls, status persistences, notification
events) together with the Go return value `(ctrl.Result, error)`.

The Go poll loop (`for { select ... }`) waits on a ticker and on context
cancellation; we linearise the loop as a list of `TickEvent`s, one per
`select` resolution.  An empty remainder of that list means the Go loop would
still be blocked waiting (it has no timeout), which the model reports as the
distinguished outcome `outOfTicks`.  The partiality of `notFoundGCPResource`
(an unchecked `[1]` index into `strings.Split`) is made explicit with an
`Option Bool`: `none` is the Go runtime panic.
-/

namespace CloudController

/-- The `benzaiten.ClusterStatus` phase enumeration referenced by the
controller: `ClusterStatusUnspecified`, `ClusterStatusProvisioning`,
`ClusterStatusRunning`, `ClusterStatusDegraded`, `ClusterStatusError`. -/
inductive ClusterPhase
  | unspecified
  | provisioning
  | running
  | degraded
  | error
deriving DecidableEq

/-- Modelled from the spec: the string values of the `benzaiten.ClusterStatus`
constants (the `api/v1` package is not under `src/`; only this controller file
is).  The spec's scenarios fix `"RUNNING"` for Running and `"ERROR"` for
Error; the remaining values follow the provider's status-string convention.
All claims below are parametric in these strings except where the spec itself
names one. -/
def clusterStatusString : ClusterPhase → String
  | .unspecified => "STATUS_UNSPECIFIED"
  | .provisioning => "PROVISIONING"
  | .running => "RUNNING"
  | .degraded => "DEGRADED"
  | .error => "ERROR"

/-- Go `strings.Split(s, sep)` for a one-character separator, over the
character list of the string: splits at every occurrence, keeps empty
segments, and always returns at least one element. -/
def goSplit (sep : Char) : List Char → List (List Char)
  | [] => [[]]
  | c :: cs =>
    if c = sep then [] :: goSplit sep cs
    else
      match goSplit sep cs with
      | [] => [[c]]
      | p :: ps => (c :: p) :: ps

/-- Rebuild a `String` from its character list. -/
def strOfList (l : List Char) : String := ⟨l⟩

/-- Shallow embedding of `notFoundGCPResource` (gcpkubernetesclusterreconciler.go:160-162):
`strings.Split(fmt.Sprintf("%v", err), ":")[1] == " Error 404"`.
The `[1]` index is unchecked in Go; when the split has a single element (the
message holds no colon) the Go code panics with an index-out-of-range runtime
error, which this model reports as `none`. -/
def notFoundGCPResource (msg : String) : Option Bool :=
  match goSplit ':' msg.data with
  | _ :: second :: _ => some (decide (strOfList second = " Error 404"))
  | _ => none

/-- The spec's textual "not-found shape": a colon-delimited message whose
second segment is the literal text `" Error 404"`.  (Total; compare with the
partial classifier above.) -/
def notFoundShape (msg : String) : Bool :=
  match goSplit ':' msg.data with
  | _ :: second :: _ => decide (strOfList second = " Error 404")
  | _ => false

/-- The `Spec` block of the `GCPKubernetesCluster` custom resource as the
controller reads it: `Spec.Zone`, `Spec.ClusterName`, `Spec.InitialNodeCount`. -/
structure GCPKubernetesClusterSpec where
  zone : String
  clusterName : String
  initialNodeCount : Int
deriving DecidableEq

/-- The `GCPKubernetesCluster` custom resource (`gkcCR`): metadata name plus
spec.  Status is not an input — the controller overwrites it wholesale. -/
structure GCPKubernetesCluster where
  name : String
  spec : GCPKubernetesClusterSpec
deriving DecidableEq

/-- The provider's `*container.Cluster` as the controller consumes it: only
`Name` and `Status` are read. -/
structure ContainerCluster where
  name : String
  status : String
deriving DecidableEq

/-- Result of `cr.Get(ctx, req.NamespacedName, &gkcCR)`: the resource, a
store-side not-found (`kerr.IsNotFound`), or any other store error. -/
inductive StoreGetResult
  | found (gkcCR : GCPKubernetesCluster)
  | notFound
  | otherError (msg : String)
deriving DecidableEq

/-- Result of one `cr.cloud.GCP.GetCluster(zone, name)` call: a cluster, or an
error carrying its formatted message (`fmt.Sprintf("%v", err)`). -/
inductive CloudGetResult
  | ok (gkc : ContainerCluster)
  | fail (msg : String)
deriving DecidableEq

/-- Result of `cr.cloud.GCP.CreateCluster(zone, cluster)`: an operation handle
(used only for logging) or an error message. -/
inductive CloudCreateResult
  | ok (op : Nat)
  | fail (msg : String)
deriving DecidableEq

/-- One resolution of the poll loop's `select`: either the 3-second ticker
fired and the subsequent `GetCluster` gave this result, or `ctx.Done()` fired
with this `ctx.Err()` message. -/
inductive TickEvent
  | tick (result : CloudGetResult)
  | cancel (ctxErr : String)
deriving DecidableEq

/-- One observable side effect of a `Reconcile` pass, in issue order:
a `CreateCluster` call (with the arguments the controller passes), a
`cr.eventRecorder.Event` notification (severity, reason, message), or a
`cr.Status().Update` persistence call (the phase written into
`gkcCR.Status.Phase` by `updateStatus` just before the call). -/
inductive Event
  | createCall (zone clusterName : String) (initialNodeCount : Int)
  | notify (severity reason message : String)
  | persist (phase : ClusterPhase)
deriving DecidableEq

/-- The value a `Reconcile` invocation comes back with: `ret r e` is Go's
`return ctrl.Result{RequeueAfter: r seconds}, e` (`r = 0` is the zero
`ctrl.Result`, `e = none` is a nil error); `panics` is the runtime panic of
the unchecked split index in `notFoundGCPResource`; `outOfTicks` means the
modelled tick list ran out while the (timeout-free) Go loop was still
blocked. -/
inductive Outcome
  | ret (requeueAfterSeconds : Nat) (goErr : Option String)
  | panics
  | outOfTicks
deriving DecidableEq

/-- The collaborator responses one `Reconcile` invocation consumes, in call
order.  `updateResults n` is the result of the (n+1)-th `cr.Status().Update`
call of the pass (`none` = success, `some msg` = error); `ticks` linearises
the poll loop's `select` resolutions. -/
structure ReconcileEnv where
  storeGet : StoreGetResult
  getCluster : CloudGetResult
  createCluster : CloudCreateResult
  updateResults : Nat → Option String
  ticks : List TickEvent

/-- Shallow embedding of the poll loop of `Reconcile`
(gcpkubernetesclusterreconciler.go:69-111).  `k` is the index of the next
`cr.Status().Update` call.  Per tick, in source order: re-query the cluster
(propagating a query error), emit the `ClusterProvisioning` event, persist
`Provisioning` (propagating an update error), then branch on the fetched
status: `RUNNING` persists Running and returns cleanly; `ERROR`, `DEGRADED`
or `STATUS_UNSPECIFIED` persists Error and returns cleanly; anything else
loops.  A `ctx.Done()` resolution returns `ctx.Err()` with no further
effects. -/
def pollLoop (updateResults : Nat → Option String) :
    List TickEvent → Nat → List Event × Outcome
  | [], _ => ([], .outOfTicks)
  | .cancel ctxErr :: _, _ => ([], .ret 0 (some ctxErr))
  | .tick (.fail e) :: _, _ => ([], .ret 0 (some e))
  | .tick (.ok gkcCreated) :: rest, k =>
    let tickEvs : List Event :=
      [.notify "Normal" "ClusterProvisioning" "GCP Kubernetes Cluster provisioning",
       .persist .provisioning]
    match updateResults k with
    | some updErr => (tickEvs, .ret 0 (some updErr))
    | none =>
      if gkcCreated.status = clusterStatusString .running then
        let evs := tickEvs ++
          [.notify "Normal" "ClusterRunning" "GCP Kubernetes Cluster running",
           .persist .running]
        match updateResults (k + 1) with
        | some updErr => (evs, .ret 0 (some updErr))
        | none => (evs, .ret 0 none)
      else if gkcCreated.status = clusterStatusString .error ∨
          gkcCreated.status = clusterStatusString .degraded ∨
          gkcCreated.status = clusterStatusString .unspecified then
        let evs := tickEvs ++
          [.notify "Warning" "ClusterNotRunning"
             ("GCP Kubernetes Cluster status is not running: " ++ gkcCreated.status),
           .persist .error]
        match updateResults (k + 1) with
        | some updErr => (evs, .ret 0 (some updErr))
        | none => (evs, .ret 0 none)
      else
        let next := pollLoop updateResults rest (k + 1)
        (tickEvs ++ next.1, next.2)

/-- Shallow embedding of `Reconcile` (gcpkubernetesclusterreconciler.go:36-134),
returning the side-effect trace and the Go return value.  Branches, in source
order: store get not-found returns nil silently; other store errors are
returned; on a cloud get error the classifier decides between the creation
branch (create, `ClusterCreation` event, persist Provisioning, poll loop) and
returning the error; on a cloud get success the status is forced to Running
(`gkc.Status = string(ClusterStatusRunning)`), the `ClusterDetection` event is
emitted, Running is persisted, and a 60-second requeue is returned. -/
def reconcile (env : ReconcileEnv) : List Event × Outcome :=
  match env.storeGet with
  | .notFound => ([], .ret 0 none)
  | .otherError msg => ([], .ret 0 (some msg))
  | .found gkcCR =>
    match env.getCluster with
    | .fail e =>
      match notFoundGCPResource e with
      | none => ([], .panics)
      | some true =>
        let createEv := Event.createCall gkcCR.spec.zone gkcCR.spec.clusterName
          gkcCR.spec.initialNodeCount
        match env.createCluster with
        | .fail ce => ([createEv], .ret 0 (some ce))
        | .ok _op =>
          let evs := [createEv,
            Event.notify "Normal" "ClusterCreation" "GCP Kubernetes Cluster creating",
            Event.persist .provisioning]
          match env.updateResults 0 with
          | some updErr => (evs, .ret 0 (some updErr))
          | none =>
            let next := pollLoop env.updateResults env.ticks 1
            (evs ++ next.1, next.2)
      | some false => ([], .ret 0 (some e))
    | .ok _gkc =>
      let evs := [Event.notify "Normal" "ClusterDetection" "GCP Kubernetes Cluster found",
        Event.persist ClusterPhase.running]
      match env.updateResults 0 with
      | some updErr => (evs, .ret 0 (some updErr))
      | none => (evs, .ret 60 none)

/-- Discriminator: is this trace event a `CreateCluster` call? -/
def Event.isCreate : Event → Bool
  | .createCall .. => true
  | _ => false

/-- Discriminator: is this trace event a `cr.Status().Update` call? -/
def Event.isPersist : Event → Bool
  | .persist _ => true
  | _ => false

/-- Discriminator: is this trace event an `eventRecorder.Event` notification? -/
def Event.isNotify : Event → Bool
  | .notify .. => true
  | _ => false

/-- The sequence of phases written by the persistence calls of a trace. -/
def persistedPhases (tr : List Event) : List ClusterPhase :=
  tr.filterMap fun e =>
    match e with
    | .persist p => some p
    | _ => none

/-- The two trace events every poll tick issues before inspecting the fetched
status: the `ClusterProvisioning` notification and the Provisioning persist. -/
def provisioningTickEvents : List Event :=
  [.notify "Normal" "ClusterProvisioning" "GCP Kubernetes Cluster provisioning",
   .persist .provisioning]

/-- The extra trace events the terminal tick issues after its per-tick events:
the success pair for `RUNNING`, the warning pair for the error statuses. -/
def terminalTickEvents (s : String) : List Event :=
  if s = clusterStatusString .running then
    [.notify "Normal" "ClusterRunning" "GCP Kubernetes Cluster running",
     .persist .running]
  else
    [.notify "Warning" "ClusterNotRunning"
       ("GCP Kubernetes Cluster status is not running: " ++ s),
     .persist .error]

/-- The spec's terminal phase mapping: Running→Running, everything else
terminal (Error/Degraded/Unspecified)→Error. -/
def specFinalPhase (s : String) : ClusterPhase :=
  if s = clusterStatusString .running then .running else .error

/-- A provider status string on which the poll loop keeps polling. -/
def NonTerminalStatus (s : String) : Prop :=
  s ≠ clusterStatusString .running ∧ s ≠ clusterStatusString .error ∧
    s ≠ clusterStatusString .degraded ∧ s ≠ clusterStatusString .unspecified

/-- A provider status string on which the poll loop exits. -/
def TerminalStatus (s : String) : Prop :=
  s = clusterStatusString .running ∨ s = clusterStatusString .error ∨
    s = clusterStatusString .degraded ∨ s = clusterStatusString .unspecified

instance (s : String) : Decidable (NonTerminalStatus s) := by
  unfold NonTerminalStatus; infer_instance

instance (s : String) : Decidable (TerminalStatus s) := by
  unfold TerminalStatus; infer_instance

/-- A `select` resolution that makes the poll loop take another iteration:
a successful get whose status is non-terminal. -/
def NonTerminalTick (t : TickEvent) : Prop :=
  ∃ c : ContainerCluster, t = .tick (.ok c) ∧ NonTerminalStatus c.status

/-- One non-terminal iteration of the poll loop: its per-tick events followed
by the rest of the loop, with the update counter advanced. -/
theorem pollLoop_cons_nonterminal (u : Nat → Option String) (c : ContainerCluster)
    (rest : List TickEvent) (k : Nat) (hu : u k = none) (hc : NonTerminalStatus c.status) :
    pollLoop u (.tick (.ok c) :: rest) k =
      (provisioningTickEvents ++ (pollLoop u rest (k + 1)).1,
       (pollLoop u rest (k + 1)).2) := by
  obtain ⟨h1, h2, h3, h4⟩ := hc
  simp [pollLoop, hu, h1, h2, h3, h4, provisioningTickEvents]

/-- Running the poll loop through a block of non-terminal ticks (all updates
succeeding) emits exactly the per-tick events, once per tick, and continues
with the remaining ticks. -/
theorem pollLoop_nonterminal_append (u : Nat → Option String) (l rest : List TickEvent)
    (k : Nat) (hu : ∀ n, u n = none) (hl : ∀ t ∈ l, NonTerminalTick t) :
    pollLoop u (l ++ rest) k =
      ((List.replicate l.length provisioningTickEvents).flatten ++
         (pollLoop u rest (k + l.length)).1,
       (pollLoop u rest (k + l.length)).2) := by
  induction l generalizing k with
  | nil => simp
  | cons t l ih =>
    obtain ⟨c, rfl, hc⟩ := hl t (List.mem_cons_self t l)
    rw [List.cons_append, pollLoop_cons_nonterminal u c (l ++ rest) k (hu k) hc,
      ih (k + 1) (fun t ht => hl t (List.mem_cons_of_mem _ ht))]
    simp [List.replicate_succ, Nat.add_right_comm, Nat.add_assoc]

/-- A terminal tick at the head of the poll loop, with updates succeeding:
the per-tick events are followed by the matching terminal events and the loop
returns the zero result with a nil error. -/
theorem pollLoop_terminal_head (u : Nat → Option String) (c : ContainerCluster)
    (rest : List TickEvent) (k : Nat) (hu : ∀ n, u n = none)
    (hc : TerminalStatus c.status) :
    pollLoop u (.tick (.ok c) :: rest) k =
      (provisioningTickEvents ++ terminalTickEvents c.status, .ret 0 none) := by
  rcases hc with hr | he | hd | hs
  · simp [pollLoop, hu, hr, provisioningTickEvents, terminalTickEvents, clusterStatusString]
  · have hnr : c.status ≠ clusterStatusString .running := by
      rw [he]; decide
    simp [pollLoop, hu, hnr, he, provisioningTickEvents, terminalTickEvents]
    decide
  · have hnr : c.status ≠ clusterStatusString .running := by
      rw [hd]; decide
    simp [pollLoop, hu, hnr, hd, provisioningTickEvents, terminalTickEvents]
    decide
  · have hnr : c.status ≠ clusterStatusString .running := by
      rw [hs]; decide
    simp [pollLoop, hu, hnr, hs, provisioningTickEvents, terminalTickEvents]
    decide

/-- Whenever the poll loop returns a Go value, its `ctrl.Result` is the zero
result: the loop never schedules a requeue. -/
theorem pollLoop_requeue_zero (u : Nat → Option String) :
    ∀ (ticks : List TickEvent) (k r : Nat) (e : Option String),
      (pollLoop u ticks k).2 = .ret r e → r = 0 := by
  intro ticks
  induction ticks with
  | nil => intro k r e h; simp [pollLoop] at h
  | cons t rest ih =>
    intro k r e h
    match t with
    | .cancel c =>
      simp [pollLoop] at h
      exact h.1.symm
    | .tick (.fail msg) =>
      simp [pollLoop] at h
      exact h.1.symm
    | .tick (.ok c) =>
      rcases hk : u k with _ | updErr
      · by_cases hr : c.status = clusterStatusString .running
        · rcases hk1 : u (k + 1) with _ | u1 <;>
            simp [pollLoop, hk, hr, hk1] at h <;>
            exact h.1.symm
        · by_cases he : c.status = clusterStatusString .error ∨
              c.status = clusterStatusString .degraded ∨
              c.status = clusterStatusString .unspecified
          · rcases hk1 : u (k + 1) with _ | u1 <;>
              simp [pollLoop, hk, hr, he, hk1] at h <;>
              exact h.1.symm
          · simp [pollLoop, hk, hr, he] at h
            exact ih (k + 1) r e h
      · simp [pollLoop, hk] at h
        exact h.1.symm

/-- The poll loop never issues a `CreateCluster` call. -/
theorem pollLoop_no_create (u : Nat → Option String) :
    ∀ (ticks : List TickEvent) (k : Nat),
      (pollLoop u ticks k).1.filter Event.isCreate = [] := by
  intro ticks
  induction ticks with
  | nil => intro k; simp [pollLoop]
  | cons t rest ih =>
    intro k
    match t with
    | .cancel c => simp [pollLoop]
    | .tick (.fail msg) => simp [pollLoop]
    | .tick (.ok c) =>
      rcases hk : u k with _ | updErr
      · by_cases hr : c.status = clusterStatusString .running
        · rcases hk1 : u (k + 1) with _ | u1 <;>
            simp [pollLoop, hk, hr, hk1, Event.isCreate]
        · by_cases he : c.status = clusterStatusString .error ∨
              c.status = clusterStatusString .degraded ∨
              c.status = clusterStatusString .unspecified
          · rcases hk1 : u (k + 1) with _ | u1 <;>
              simp [pollLoop, hk, hr, he, hk1, Event.isCreate]
          · simp [pollLoop, hk, hr, he, Event.isCreate, ih (k + 1)]
      · simp [pollLoop, hk, Event.isCreate]

/-- Persisted phases split over trace concatenation. -/
theorem persistedPhases_append (a b : List Event) :
    persistedPhases (a ++ b) = persistedPhases a ++ persistedPhases b := by
  simp [persistedPhases]

/-- A block of n per-tick event pairs persists Provisioning exactly n times. -/
theorem persistedPhases_replicate_join (n : Nat) :
    persistedPhases ((List.replicate n provisioningTickEvents).flatten) =
      List.replicate n ClusterPhase.provisioning := by
  induction n with
  | zero => simp [persistedPhases]
  | succ n ih =>
    simp [List.replicate_succ, persistedPhases_append, ih, persistedPhases,
      provisioningTickEvents]

/-- The terminal events persist exactly the spec's mapped final phase. -/
theorem persistedPhases_terminal (s : String) :
    persistedPhases (terminalTickEvents s) = [specFinalPhase s] := by
  by_cases hr : s = clusterStatusString .running <;>
    simp [terminalTickEvents, specFinalPhase, hr, persistedPhases]

/-- The per-tick events persist Provisioning exactly once. -/
theorem persistedPhases_provisioningTick :
    persistedPhases provisioningTickEvents = [ClusterPhase.provisioning] := by
  simp [persistedPhases, provisioningTickEvents]

/-- C1: for a stored resource whose external cluster is absent (the provider
get fails and the classifier recognises the not-found shape), `Reconcile`
issues exactly one create call carrying the spec's zone, cluster name and
initial node count verbatim, emits the `ClusterCreation` event, persists
phase Provisioning, and continues as the poll loop over the remaining ticks. -/
theorem claim_C1_create_verbatim (env : ReconcileEnv) (gkcCR : GCPKubernetesCluster)
    (e : String) (op : Nat)
    (hstore : env.storeGet = .found gkcCR)
    (hget : env.getCluster = .fail e)
    (hnf : notFoundGCPResource e = some true)
    (hcreate : env.createCluster = .ok op)
    (hupd : env.updateResults 0 = none) :
    reconcile env =
      (Event.createCall gkcCR.spec.zone gkcCR.spec.clusterName gkcCR.spec.initialNodeCount ::
         Event.notify "Normal" "ClusterCreation" "GCP Kubernetes Cluster creating" ::
         Event.persist .provisioning :: (pollLoop env.updateResults env.ticks 1).1,
       (pollLoop env.updateResults env.ticks 1).2) ∧
    (reconcile env).1.filter Event.isCreate =
      [Event.createCall gkcCR.spec.zone gkcCR.spec.clusterName gkcCR.spec.initialNodeCount] := by
  have h1 : reconcile env =
      (Event.createCall gkcCR.spec.zone gkcCR.spec.clusterName gkcCR.spec.initialNodeCount ::
         Event.notify "Normal" "ClusterCreation" "GCP Kubernetes Cluster creating" ::
         Event.persist .provisioning :: (pollLoop env.updateResults env.ticks 1).1,
       (pollLoop env.updateResults env.ticks 1).2) := by
    simp [reconcile, hstore, hget, hnf, hcreate, hupd]
  refine ⟨h1, ?_⟩
  rw [h1]
  simp [Event.isCreate, pollLoop_no_create env.updateResults env.ticks 1]

/-- Concrete input for C1. -/
def c1Env : ReconcileEnv where
  storeGet := .found ⟨"demo", ⟨"us-central1-a", "demo", 3⟩⟩
  getCluster := .fail "googleapi: Error 404: Not found"
  createCluster := .ok 7
  updateResults := fun _ => none
  ticks := [.cancel "context canceled"]

/-- C1 witness: the theorem applied at a concrete environment. -/
theorem claim_C1_witness :
    reconcile c1Env =
      (Event.createCall "us-central1-a" "demo" 3 ::
         Event.notify "Normal" "ClusterCreation" "GCP Kubernetes Cluster creating" ::
         Event.persist .provisioning :: (pollLoop c1Env.updateResults c1Env.ticks 1).1,
       (pollLoop c1Env.updateResults c1Env.ticks 1).2) ∧
    (reconcile c1Env).1.filter Event.isCreate = [Event.createCall "us-central1-a" "demo" 3] :=
  claim_C1_create_verbatim c1Env ⟨"demo", ⟨"us-central1-a", "demo", 3⟩⟩
    "googleapi: Error 404: Not found" 7 rfl rfl (by decide) rfl rfl

/-- C3: for a stored resource whose external cluster already exists, whatever
status the provider actually reports, `Reconcile` persists phase Running
exactly once, emits one Normal `ClusterDetection` ("found") notification, and
returns a 60-second requeue directive with a nil error. -/
theorem claim_C3_existing_cluster (env : ReconcileEnv) (gkcCR : GCPKubernetesCluster)
    (gkc : ContainerCluster)
    (hstore : env.storeGet = .found gkcCR)
    (hget : env.getCluster = .ok gkc)
    (hupd : env.updateResults 0 = none) :
    reconcile env =
      ([Event.notify "Normal" "ClusterDetection" "GCP Kubernetes Cluster found",
        Event.persist ClusterPhase.running],
       .ret 60 none) := by
  simp [reconcile, hstore, hget, hupd]

/-- Concrete input for C3: the provider reports `DEGRADED`, yet Running is
persisted. -/
def c3Env : ReconcileEnv where
  storeGet := .found ⟨"demo", ⟨"us-central1-a", "demo", 3⟩⟩
  getCluster := .ok ⟨"demo", "DEGRADED"⟩
  createCluster := .ok 7
  updateResults := fun _ => none
  ticks := []

/-- C3 witness: the theorem applied at a concrete environment. -/
theorem claim_C3_witness :
    reconcile c3Env =
      ([Event.notify "Normal" "ClusterDetection" "GCP Kubernetes Cluster found",
        Event.persist ClusterPhase.running],
       .ret 60 none) :=
  claim_C3_existing_cluster c3Env ⟨"demo", ⟨"us-central1-a", "demo", 3⟩⟩
    ⟨"demo", "DEGRADED"⟩ rfl rfl rfl

/-- C5: for a resource identifier absent from the store, `Reconcile` returns
a nil error with an empty side-effect trace: no create, no persistence, no
notification. -/
theorem claim_C5_resource_absent (env : ReconcileEnv)
    (h : env.storeGet = .notFound) :
    reconcile env = ([], .ret 0 none) := by
  simp [reconcile, h]

/-- Concrete input for C5. -/
def c5Env : ReconcileEnv where
  storeGet := .notFound
  getCluster := .ok ⟨"demo", "RUNNING"⟩
  createCluster := .ok 7
  updateResults := fun _ => none
  ticks := []

/-- C5 witness: the theorem applied at a concrete environment. -/
theorem claim_C5_witness : reconcile c5Env = ([], .ret 0 none) :=
  claim_C5_resource_absent c5Env rfl

/-- C2: in the poll loop (all persistence calls succeeding), every tick up to
and including the tick that fetches a terminal status persists Provisioning
exactly once, the terminal tick then persists the mapped final phase
(Running→Running, Error/Degraded/Unspecified→Error) as the last persistence,
and the loop exits with the zero result and a nil error in both terminal
cases. -/
theorem claim_C2_poll_until_terminal (u : Nat → Option String) (l : List TickEvent)
    (c : ContainerCluster) (rest : List TickEvent) (k : Nat)
    (hu : ∀ n, u n = none) (hl : ∀ t ∈ l, NonTerminalTick t)
    (hc : TerminalStatus c.status) :
    pollLoop u (l ++ TickEvent.tick (.ok c) :: rest) k =
      ((List.replicate l.length provisioningTickEvents).flatten ++
         (provisioningTickEvents ++ terminalTickEvents c.status),
       .ret 0 none) ∧
    persistedPhases (pollLoop u (l ++ TickEvent.tick (.ok c) :: rest) k).1 =
      List.replicate (l.length + 1) ClusterPhase.provisioning ++
        [specFinalPhase c.status] := by
  have h1 : pollLoop u (l ++ TickEvent.tick (.ok c) :: rest) k =
      ((List.replicate l.length provisioningTickEvents).flatten ++
         (provisioningTickEvents ++ terminalTickEvents c.status),
       .ret 0 none) := by
    rw [pollLoop_nonterminal_append u l _ k hu hl,
      pollLoop_terminal_head u c rest (k + l.length) hu hc]
  refine ⟨h1, ?_⟩
  rw [h1]
  simp [persistedPhases_append, persistedPhases_replicate_join,
    persistedPhases_terminal, persistedPhases_provisioningTick,
    List.replicate_succ']

/-- C2 witness: one non-terminal tick followed by an `ERROR` tick. -/
theorem claim_C2_witness :
    pollLoop (fun _ => none)
        ([TickEvent.tick (.ok ⟨"demo", "PROVISIONING"⟩)] ++
          TickEvent.tick (.ok ⟨"demo", "ERROR"⟩) :: []) 1 =
      ((List.replicate [TickEvent.tick (.ok ⟨"demo", "PROVISIONING"⟩)].length
          provisioningTickEvents).flatten ++
         (provisioningTickEvents ++
           terminalTickEvents (ContainerCluster.status ⟨"demo", "ERROR"⟩)),
       .ret 0 none) ∧
    persistedPhases
        (pollLoop (fun _ => none)
          ([TickEvent.tick (.ok ⟨"demo", "PROVISIONING"⟩)] ++
            TickEvent.tick (.ok ⟨"demo", "ERROR"⟩) :: []) 1).1 =
      List.replicate ([TickEvent.tick (.ok ⟨"demo", "PROVISIONING"⟩)].length + 1)
          ClusterPhase.provisioning ++
        [specFinalPhase (ContainerCluster.status ⟨"demo", "ERROR"⟩)] :=
  claim_C2_poll_until_terminal (fun _ => none)
    [TickEvent.tick (.ok ⟨"demo", "PROVISIONING"⟩)] ⟨"demo", "ERROR"⟩ [] 1
    (fun _ => rfl)
    (fun t ht => ⟨⟨"demo", "PROVISIONING"⟩, List.mem_singleton.mp ht, by decide⟩)
    (by decide)

/-- C6: if `ctx.Done()` resolves while the poll loop is waiting, `Reconcile`
returns the cancellation error with the zero result at once: the trace ends
with the per-tick events of the ticks already completed, and no further
persistence or notification follows the cancellation. -/
theorem claim_C6_cancellation (env : ReconcileEnv) (gkcCR : GCPKubernetesCluster)
    (e : String) (op : Nat) (ctxErr : String) (l rest : List TickEvent)
    (hstore : env.storeGet = .found gkcCR)
    (hget : env.getCluster = .fail e)
    (hnf : notFoundGCPResource e = some true)
    (hcreate : env.createCluster = .ok op)
    (hu : ∀ n, env.updateResults n = none)
    (hticks : env.ticks = l ++ TickEvent.cancel ctxErr :: rest)
    (hl : ∀ t ∈ l, NonTerminalTick t) :
    reconcile env =
      (Event.createCall gkcCR.spec.zone gkcCR.spec.clusterName gkcCR.spec.initialNodeCount ::
         Event.notify "Normal" "ClusterCreation" "GCP Kubernetes Cluster creating" ::
         Event.persist .provisioning ::
         (List.replicate l.length provisioningTickEvents).flatten,
       .ret 0 (some ctxErr)) := by
  have hp : pollLoop env.updateResults env.ticks 1 =
      ((List.replicate l.length provisioningTickEvents).flatten,
       .ret 0 (some ctxErr)) := by
    rw [hticks, pollLoop_nonterminal_append env.updateResults l _ 1 hu hl]
    simp [pollLoop]
  simp [reconcile, hstore, hget, hnf, hcreate, hu 0, hp]

/-- Concrete input for C6: cancellation after one completed tick. -/
def c6Env : ReconcileEnv where
  storeGet := .found ⟨"demo", ⟨"us-central1-a", "demo", 3⟩⟩
  getCluster := .fail "googleapi: Error 404: Not found"
  createCluster := .ok 7
  updateResults := fun _ => none
  ticks := [TickEvent.tick (.ok ⟨"demo", "PROVISIONING"⟩), TickEvent.cancel "context canceled"]

/-- C6 witness: the theorem applied at a concrete environment. -/
theorem claim_C6_witness :
    reconcile c6Env =
      (Event.createCall "us-central1-a" "demo" 3 ::
         Event.notify "Normal" "ClusterCreation" "GCP Kubernetes Cluster creating" ::
         Event.persist .provisioning ::
         (List.replicate [TickEvent.tick (.ok ⟨"demo", "PROVISIONING"⟩)].length
           provisioningTickEvents).flatten,
       .ret 0 (some "context canceled")) :=
  claim_C6_cancellation c6Env ⟨"demo", ⟨"us-central1-a", "demo", 3⟩⟩
    "googleapi: Error 404: Not found" 7 "context canceled"
    [TickEvent.tick (.ok ⟨"demo", "PROVISIONING"⟩)] []
    rfl rfl (by decide) rfl (fun _ => rfl) rfl
    (fun t ht => ⟨⟨"demo", "PROVISIONING"⟩, List.mem_singleton.mp ht, by decide⟩)

/-- C7: a provider query error other than the recognised not-found one is
surfaced unchanged to the caller with the zero result, both when the initial
`GetCluster` fails (classifier says false) and when a poll tick's re-query
fails; the failing query adds no persistence to the trace. -/
theorem claim_C7_query_error_surfaced :
    (∀ (env : ReconcileEnv) (gkcCR : GCPKubernetesCluster) (e : String),
       env.storeGet = .found gkcCR → env.getCluster = .fail e →
       notFoundGCPResource e = some false →
       reconcile env = ([], .ret 0 (some e))) ∧
    (∀ (u : Nat → Option String) (l : List TickEvent) (e : String)
       (rest : List TickEvent) (k : Nat),
       (∀ n, u n = none) → (∀ t ∈ l, NonTerminalTick t) →
       pollLoop u (l ++ TickEvent.tick (.fail e) :: rest) k =
         ((List.replicate l.length provisioningTickEvents).flatten,
          .ret 0 (some e))) := by
  constructor
  · intro env gkcCR e hstore hget hnf
    simp [reconcile, hstore, hget, hnf]
  · intro u l e rest k hu hl
    rw [pollLoop_nonterminal_append u l _ k hu hl]
    simp [pollLoop]

/-- Concrete input for C7: a transient provider error on the initial get. -/
def c7Env : ReconcileEnv where
  storeGet := .found ⟨"demo", ⟨"us-central1-a", "demo", 3⟩⟩
  getCluster := .fail "rpc error: unavailable"
  createCluster := .ok 7
  updateResults := fun _ => none
  ticks := []

/-- C7 witness: both conjuncts applied at concrete inputs. -/
theorem claim_C7_witness :
    reconcile c7Env = ([], .ret 0 (some "rpc error: unavailable")) ∧
    pollLoop (fun _ => none)
        (([] : List TickEvent) ++ TickEvent.tick (.fail "rpc error: unavailable") :: []) 1 =
      ((List.replicate ([] : List TickEvent).length provisioningTickEvents).flatten,
       .ret 0 (some "rpc error: unavailable")) :=
  ⟨claim_C7_query_error_surfaced.1 c7Env ⟨"demo", ⟨"us-central1-a", "demo", 3⟩⟩
     "rpc error: unavailable" rfl rfl (by decide),
   claim_C7_query_error_surfaced.2 (fun _ => none) [] "rpc error: unavailable" [] 1
     (fun _ => rfl) (fun t ht => absurd ht (List.not_mem_nil t))⟩

/-- C4 counterexample: the claim says the classifier returns false on every
message not matching the not-found shape.  The colonless message `"boom"`
does not match the shape, yet the classifier does not return false there —
its unchecked `[1]` index panics (modelled as `none`). -/
theorem claim_C4_counterexample :
    notFoundShape "boom" = false ∧ notFoundGCPResource "boom" ≠ some false := by
  decide

/-- C4 amended: for every provider error whose message splits on `':'` into
at least two segments and whose second segment is not `" Error 404"`, the
classifier returns false and `Reconcile` surfaces the error without taking
the creation branch (no create call in the trace); messages with no colon
instead crash the classifier. -/
theorem claim_C4_no_misclassification (env : ReconcileEnv)
    (gkcCR : GCPKubernetesCluster) (msg : String) (a b : List Char)
    (rest : List (List Char))
    (hstore : env.storeGet = .found gkcCR)
    (hget : env.getCluster = .fail msg)
    (hsplit : goSplit ':' msg.data = a :: b :: rest)
    (hb : strOfList b ≠ " Error 404") :
    notFoundGCPResource msg = some false ∧
    reconcile env = ([], .ret 0 (some msg)) := by
  have hn : notFoundGCPResource msg = some false := by
    unfold notFoundGCPResource
    rw [hsplit]
    simp [hb]
  exact ⟨hn, by simp [reconcile, hstore, hget, hn]⟩

/-- Concrete input for C4: a transient error with a colon in its message. -/
def c4Env : ReconcileEnv where
  storeGet := .found ⟨"demo", ⟨"us-central1-a", "demo", 3⟩⟩
  getCluster := .fail "rpc error: deadline exceeded"
  createCluster := .ok 7
  updateResults := fun _ => none
  ticks := []

/-- C4 witness: the amended theorem applied at a concrete environment. -/
theorem claim_C4_witness :
    notFoundGCPResource "rpc error: deadline exceeded" = some false ∧
    reconcile c4Env = ([], .ret 0 (some "rpc error: deadline exceeded")) :=
  claim_C4_no_misclassification c4Env ⟨"demo", ⟨"us-central1-a", "demo", 3⟩⟩
    "rpc error: deadline exceeded" "rpc error".data " deadline exceeded".data []
    rfl rfl (by decide) (by decide)

/-- Concrete environment of the spec's C8 scenario: resource
`{zone: "us-central1-a", clusterName: "demo", initialNodeCount: 3}`, the
provider reports not-found on the initial get, a non-terminal status on the
first poll, and `"RUNNING"` on the second poll; every collaborator call
succeeds. -/
def c8Env : ReconcileEnv where
  storeGet := .found ⟨"demo", ⟨"us-central1-a", "demo", 3⟩⟩
  getCluster := .fail "googleapi: Error 404: Not found"
  createCluster := .ok 7
  updateResults := fun _ => none
  ticks := [TickEvent.tick (.ok ⟨"demo", "PROVISIONING"⟩),
            TickEvent.tick (.ok ⟨"demo", "RUNNING"⟩)]

/-- C8 counterexample: in the scenario the claim promises exactly two status
persistences and exactly two notifications; the code issues four of each (the
poll loop persists Provisioning and emits `ClusterProvisioning` on every
tick, including the terminal one, before the final Running pair). -/
theorem claim_C8_counterexample :
    ((reconcile c8Env).1.filter Event.isPersist).length = 4 ∧
    ((reconcile c8Env).1.filter Event.isNotify).length = 4 ∧
    ¬(((reconcile c8Env).1.filter Event.isPersist).length = 2 ∧
      ((reconcile c8Env).1.filter Event.isNotify).length = 2) := by
  decide

/-- C8 amended: in the scenario, `Reconcile` performs exactly one create
call, four status persistences (Provisioning three times, then Running), and
four notifications (ClusterCreation/Normal, ClusterProvisioning/Normal twice,
ClusterRunning/Normal), and returns no error and no requeue directive. -/
theorem claim_C8_scenario_trace :
    reconcile c8Env =
      ([Event.createCall "us-central1-a" "demo" 3,
        Event.notify "Normal" "ClusterCreation" "GCP Kubernetes Cluster creating",
        Event.persist .provisioning,
        Event.notify "Normal" "ClusterProvisioning" "GCP Kubernetes Cluster provisioning",
        Event.persist .provisioning,
        Event.notify "Normal" "ClusterProvisioning" "GCP Kubernetes Cluster provisioning",
        Event.persist .provisioning,
        Event.notify "Normal" "ClusterRunning" "GCP Kubernetes Cluster running",
        Event.persist .running],
       .ret 0 none) ∧
    ((reconcile c8Env).1.filter Event.isCreate).length = 1 := by
  decide

/-- C9: the not-found classifier is not total — on any provider error whose
formatted message contains no colon (the split has a single element), it
indexes past the end of the split (`none`, a Go panic), so `Reconcile` has no
defined behaviour on such an error rather than treating it as a non-404. -/
theorem claim_C9_classifier_not_total (env : ReconcileEnv)
    (gkcCR : GCPKubernetesCluster) (msg : String)
    (hstore : env.storeGet = .found gkcCR)
    (hget : env.getCluster = .fail msg)
    (hnc : (goSplit ':' msg.data).length = 1) :
    notFoundGCPResource msg = none ∧ reconcile env = ([], .panics) := by
  have hn : notFoundGCPResource msg = none := by
    rcases h : goSplit ':' msg.data with _ | ⟨a, _ | ⟨b, t⟩⟩
    · simp [notFoundGCPResource, h]
    · simp [notFoundGCPResource, h]
    · rw [h] at hnc
      simp at hnc
  exact ⟨hn, by simp [reconcile, hstore, hget, hn]⟩

/-- Concrete input for C9: the colonless message `"boom"`. -/
def c9Env : ReconcileEnv where
  storeGet := .found ⟨"demo", ⟨"us-central1-a", "demo", 3⟩⟩
  getCluster := .fail "boom"
  createCluster := .ok 7
  updateResults := fun _ => none
  ticks := []

/-- C9 witness: the theorem applied at a concrete environment. -/
theorem claim_C9_witness :
    notFoundGCPResource "boom" = none ∧ reconcile c9Env = ([], .panics) :=
  claim_C9_classifier_not_total c9Env ⟨"demo", ⟨"us-central1-a", "demo", 3⟩⟩
    "boom" rfl rfl (by decide)

/-- C10: whenever `Reconcile` returns with a non-nil error its `ctrl.Result`
is the zero result, and the only return carrying a non-zero requeue is the
60-second directive of the already-exists success path (in particular the
poll loop, which only runs when the initial get failed, never returns a
non-zero requeue). -/
theorem claim_C10_requeue_invariant (env : ReconcileEnv) (r : Nat)
    (goErr : Option String)
    (h : (reconcile env).2 = .ret r goErr) :
    (goErr ≠ none → r = 0) ∧
    (r ≠ 0 → r = 60 ∧ goErr = none ∧
      ∃ (gkcCR : GCPKubernetesCluster) (gkc : ContainerCluster),
        env.storeGet = .found gkcCR ∧ env.getCluster = .ok gkc) := by
  have finish0 : ∀ P : Prop, r = 0 →
      ((goErr ≠ none → r = 0) ∧ (r ≠ 0 → P)) :=
    fun _ h0 => ⟨fun _ => h0, fun hr => absurd h0 hr⟩
  rcases hs : env.storeGet with gkcCR | _ | msg
  · rcases hg : env.getCluster with gkc | e
    · rcases hu : env.updateResults 0 with _ | updErr
      · simp [reconcile, hs, hg, hu] at h
        obtain ⟨h1, h2⟩ := h
        subst h1
        subst h2
        exact ⟨fun hne => absurd rfl hne, fun _ => ⟨rfl, rfl, gkcCR, gkc, rfl, rfl⟩⟩
      · simp [reconcile, hs, hg, hu] at h
        obtain ⟨h1, h2⟩ := h
        exact finish0 _ (by omega)
    · rcases hnf : notFoundGCPResource e with _ | b
      · simp [reconcile, hs, hg, hnf] at h
      · cases b
        · simp [reconcile, hs, hg, hnf] at h
          obtain ⟨h1, h2⟩ := h
          exact finish0 _ (by omega)
        · rcases hc : env.createCluster with op | ce
          · rcases hu : env.updateResults 0 with _ | updErr
            · simp [reconcile, hs, hg, hnf, hc, hu] at h
              exact finish0 _ (pollLoop_requeue_zero env.updateResults env.ticks 1 r goErr h)
            · simp [reconcile, hs, hg, hnf, hc, hu] at h
              obtain ⟨h1, h2⟩ := h
              exact finish0 _ (by omega)
          · simp [reconcile, hs, hg, hnf, hc] at h
            obtain ⟨h1, h2⟩ := h
            exact finish0 _ (by omega)
  · simp [reconcile, hs] at h
    obtain ⟨h1, h2⟩ := h
    exact finish0 _ (by omega)
  · simp [reconcile, hs] at h
    obtain ⟨h1, h2⟩ := h
    exact finish0 _ (by omega)

/-- Concrete input for C10: the already-exists success path. -/
def c10Env : ReconcileEnv where
  storeGet := .found ⟨"demo", ⟨"us-central1-a", "demo", 3⟩⟩
  getCluster := .ok ⟨"demo", "RUNNING"⟩
  createCluster := .ok 7
  updateResults := fun _ => none
  ticks := []

/-- C10 witness: the theorem applied at the 60-second requeue return. -/
theorem claim_C10_witness :
    ((none : Option String) ≠ none → (60 : Nat) = 0) ∧
    ((60 : Nat) ≠ 0 → (60 : Nat) = 60 ∧ (none : Option String) = none ∧
      ∃ (gkcCR : GCPKubernetesCluster) (gkc : ContainerCluster),
        c10Env.storeGet = .found gkcCR ∧ c10Env.getCluster = .ok gkc) :=
  claim_C10_requeue_invariant c10Env 60 none rfl

end CloudController
